import Mathlib

/-
  Verification development for the stop-azs repository.

  Shallow embedding of:
    - src/sar_parser/validator.py   (namespace SarParser)
    - src/sar_parser/pipeline.py    (namespace SarParser.Pipeline)
    - src/sar_parser/live_update.py (namespace SarParser.Live)
    - src/stop_azs/validation.py    (namespace StopAzs)

  Python machine-level details are modelled as follows: strings are Lean
  strings, with str.strip/str.upper/str.lower/str.isalpha embedded as the
  ASCII-level structural functions defined below (the documents in scope are
  ASCII); XML trees are the Element structure below with ElementTree's
  find/findall on plain child paths; fallible collaborator calls are Except /
  Option values.
-/

set_option maxRecDepth 4000

namespace SarParser

/-! String primitives. Lean's own `String.trim`, `String.toUpper`,
`String.splitOn` and `String.all` are defined by well-founded recursion over
byte positions, which the kernel cannot evaluate; the embedding therefore
uses the structurally recursive ASCII equivalents below, which on the ASCII
strings in scope agree with Python's `str.strip`, `str.upper`, `str.lower`
and `str.split`. -/

/-- Python `str.strip` whitespace: space, tab, newline, carriage return,
vertical tab, form feed. -/
def isPyWhitespace (c : Char) : Bool :=
  c == ' ' || c == '\t' || c == '\n' || c == '\r' || c == '\x0b' || c == '\x0c'

/-- `str.strip()` on a character list. -/
def pyStripList (cs : List Char) : List Char :=
  ((cs.dropWhile isPyWhitespace).reverse.dropWhile isPyWhitespace).reverse

/-- `str.strip()`. -/
def pyStrip (s : String) : String :=
  String.mk (pyStripList s.data)

/-- `str.upper()` on one ASCII character. -/
def pyUpperChar (c : Char) : Char :=
  if 'a' ≤ c && c ≤ 'z' then Char.ofNat (c.toNat - 32) else c

/-- `str.upper()`. -/
def pyUpper (s : String) : String :=
  String.mk (s.data.map pyUpperChar)

/-- `str.lower()` on one ASCII character. -/
def pyLowerChar (c : Char) : Char :=
  if 'A' ≤ c && c ≤ 'Z' then Char.ofNat (c.toNat + 32) else c

/-- `str.lower()`. -/
def pyLower (s : String) : String :=
  String.mk (s.data.map pyLowerChar)

/-- `all(p(c) for c in s)`. -/
def strAll (s : String) (p : Char → Bool) : Bool :=
  s.data.all p

/-- Split a character list on a separator character. -/
def splitOnCharAux (sep : Char) : List Char → List Char → List (List Char)
  | [], acc => [acc.reverse]
  | c :: rest, acc =>
    if c == sep then acc.reverse :: splitOnCharAux sep rest []
    else splitOnCharAux sep rest (c :: acc)

/-- Split a string on a one-character separator, as `str.split(sep)` and
`String.splitOn` do. -/
def splitStrOnChar (sep : Char) (s : String) : List String :=
  (splitOnCharAux sep s.data []).map String.mk

/-- The natural number denoted by a digit string. -/
def natOfDigits (s : String) : Nat :=
  s.data.foldl (fun acc c => acc * 10 + (c.toNat - '0'.toNat)) 0

/-- The module-level `PLACEHOLDER_VALUES` set of validator.py (line 36):
`{"", "UNKNOWN", "PENDING", "NOT APPLICABLE"}`. -/
def PLACEHOLDER_VALUES : List String :=
  ["", "UNKNOWN", "PENDING", "NOT APPLICABLE"]

/-- The `ValidationError` dataclass: message, optional XPath-like location,
and a severity string (the dataclass default is "error"). -/
structure ValidationError where
  message : String
  location : Option String
  severity : String
deriving Repr, DecidableEq

/-- The `ValidationError` constructor including `__post_init__`, which turns a
location equal to the empty string into `None`. -/
def mkValidationError (message : String) (location : Option String)
    (severity : String) : ValidationError :=
  { message := message
    location := if location = some "" then none else location
    severity := severity }

/-- The `ValidationResult` dataclass: the collected list of errors. -/
structure ValidationResult where
  errors : List ValidationError
deriving Repr, DecidableEq

/-- `ValidationResult.is_valid` (validator.py line 71): `return not self.errors`
— true exactly when the errors list is empty, regardless of severity. -/
def ValidationResult.is_valid (r : ValidationResult) : Bool :=
  r.errors.isEmpty

/-- `_normalise_text`: `(value or "").strip()`. -/
def normaliseText (value : Option String) : String :=
  pyStrip (value.getD "")

/-- `_is_placeholder`: the trimmed, upper-cased text is in `PLACEHOLDER_VALUES`. -/
def isPlaceholder (value : Option String) : Bool :=
  PLACEHOLDER_VALUES.contains (pyUpper (normaliseText value))

/-- Gregorian leap-year rule, as used by `datetime`. -/
def isLeapYear (y : Nat) : Bool :=
  (y % 4 == 0 && y % 100 != 0) || y % 400 == 0

/-- Days in a month of the proleptic Gregorian calendar. -/
def daysInMonth (y m : Nat) : Nat :=
  if m = 2 then (if isLeapYear y then 29 else 28)
  else if m = 4 || m = 6 || m = 9 || m = 11 then 30
  else 31

/-- `datetime.strptime(value, "%Y-%m-%d")` as a partial parse: `%Y` is exactly
four digits, `%m` and `%d` one or two digits, the dashes literal, the whole
string consumed, and the three numbers a real calendar date (year at least 1,
month 1–12, day within the month). -/
def parseStrptimeYmd (s : String) : Option (Nat × Nat × Nat) :=
  match splitStrOnChar '-' s with
  | [ys, ms, ds] =>
    if ys.length == 4 && strAll ys Char.isDigit
        && (1 ≤ ms.length && ms.length ≤ 2) && strAll ms Char.isDigit
        && (1 ≤ ds.length && ds.length ≤ 2) && strAll ds Char.isDigit then
      let y := natOfDigits ys
      let m := natOfDigits ms
      let d := natOfDigits ds
      if 1 ≤ y ∧ 1 ≤ m ∧ m ≤ 12 ∧ 1 ≤ d ∧ d ≤ daysInMonth y m then
        some (y, m, d)
      else none
    else none
  | _ => none

/-- Whether `datetime.strptime(value, "%Y-%m-%d")` succeeds. -/
def validDateYmd (s : String) : Bool :=
  (parseStrptimeYmd s).isSome

/-- `_validate_date`: one format error when the value does not parse. -/
def validateDate (value : String) (location : String) (label : String) :
    List ValidationError :=
  if validDateYmd value then []
  else [mkValidationError (label ++ " must be in YYYY-MM-DD format.")
          (some location) "error"]

/-- An ElementTree element after parsing: tag, attributes, text, ordered
children. -/
structure Element where
  tag : String
  attrs : List (String × String)
  text : Option String
  children : List Element

/-- `parent.find(tag)` on a plain tag: the first direct child with that tag. -/
def Element.findTag (e : Element) (tag : String) : Option Element :=
  e.children.find? (fun c => c.tag == tag)

/-- `root.findall("a/b")`: for each direct child tagged `a`, in order, its
direct children tagged `b`. -/
def Element.findAll2 (e : Element) (a b : String) : List Element :=
  (e.children.filter (fun c => c.tag == a)).flatMap
    (fun c => c.children.filter (fun g => g.tag == b))

/-- `element.get(key)` on the attribute mapping. -/
def Element.getAttr (e : Element) (k : String) : Option String :=
  (e.attrs.find? (fun p => p.1 == k)).map Prod.snd

/-- `_validate_required_text`: a missing child yields the missing message, a
placeholder value yields the placeholder message (falling back to the missing
message); otherwise the normalised text is returned. -/
def validateRequiredText (parent : Element) (tag : String) (location : String)
    (missingMessage : String) (placeholderMessage : Option String) :
    List ValidationError × Option String :=
  match parent.findTag tag with
  | none => ([mkValidationError missingMessage (some location) "error"], none)
  | some element =>
    let value := normaliseText element.text
    if isPlaceholder (some value) then
      ([mkValidationError (placeholderMessage.getD missingMessage)
          (some location) "error"], none)
    else
      ([], some value)

/-- `_validate_required_blocks`. -/
def validateRequiredBlocks (root : Element) : List ValidationError :=
  (if (root.findTag "FilingInformation").isNone then
    [mkValidationError "Missing <FilingInformation> block." (some "/SAR") "error"]
  else []) ++
  (if (root.findTag "FilerInformation").isNone then
    [mkValidationError "Missing <FilerInformation> block." (some "/SAR") "error"]
  else []) ++
  (if (root.findAll2 "Subjects" "Subject").isEmpty then
    [mkValidationError "At least one <Subject> is required." (some "/SAR/Subjects") "error"]
  else []) ++
  (if (root.findAll2 "Transactions" "Transaction").isEmpty then
    [mkValidationError "At least one <Transaction> is required."
      (some "/SAR/Transactions") "error"]
  else [])

/-- `_validate_filing_information`. The `if filing_date:` truthiness test is
the non-empty check on the returned optional string. -/
def validateFilingInformation (root : Element) : List ValidationError :=
  match root.findTag "FilingInformation" with
  | none => []
  | some filing =>
    let r1 := validateRequiredText filing "FilingType"
      "/SAR/FilingInformation/FilingType"
      "Missing <FilingType> value."
      (some "FilingType cannot be empty or a placeholder.")
    let r2 := validateRequiredText filing "FilingDate"
      "/SAR/FilingInformation/FilingDate"
      "Missing <FilingDate> value."
      (some "FilingDate cannot be empty or a placeholder.")
    let dateErrs :=
      match r2.2 with
      | some fd =>
        if fd == "" then []
        else validateDate fd "/SAR/FilingInformation/FilingDate" "FilingDate"
      | none => []
    let r3 := validateRequiredText filing "AmendmentType"
      "/SAR/FilingInformation/AmendmentType"
      "Missing <AmendmentType> value."
      (some "AmendmentType cannot be empty or a placeholder.")
    r1.1 ++ r2.1 ++ dateErrs ++ r3.1

/-- The filer-address tags checked by `_validate_filer_information`. -/
def filerAddressTags : List String :=
  ["AddressLine1", "City", "State", "ZIP", "Country"]

/-- `_validate_filer_information`. -/
def validateFilerInformation (root : Element) : List ValidationError :=
  match root.findTag "FilerInformation" with
  | none => []
  | some filer =>
    let r1 := validateRequiredText filer "FilerName"
      "/SAR/FilerInformation/FilerName"
      "Missing <FilerName> value."
      (some "FilerName cannot be empty or a placeholder.")
    match filer.findTag "FilerAddress" with
    | none =>
      r1.1 ++ [mkValidationError "Missing <FilerAddress> block."
        (some "/SAR/FilerInformation") "error"]
    | some address =>
      r1.1 ++ filerAddressTags.flatMap (fun tag =>
        (validateRequiredText address tag
          ("/SAR/FilerInformation/FilerAddress/" ++ tag)
          ("Missing <" ++ tag ++ "> value in filer address.")
          (some ("<" ++ tag ++ "> in filer address cannot be empty or a placeholder."))).1)

/-- `enumerate(xs, start=i)`. -/
def enumFrom {α : Type} : Nat → List α → List (Nat × α)
  | _, [] => []
  | i, x :: xs => (i, x) :: enumFrom (i + 1) xs

/-- `_validate_subjects`. -/
def validateSubjects (root : Element) : List ValidationError :=
  (enumFrom 1 (root.findAll2 "Subjects" "Subject")).flatMap (fun p =>
    let loc := "/SAR/Subjects/Subject[" ++ toString p.1 ++ "]"
    (validateRequiredText p.2 "Name" (loc ++ "/Name")
      "Subject must include a <Name> element."
      (some "Subject name cannot be empty or a placeholder.")).1 ++
    (validateRequiredText p.2 "EntityType" (loc ++ "/EntityType")
      "Subject must include an <EntityType> element."
      (some "EntityType cannot be empty or a placeholder.")).1)

/-- One hexadecimal character, as matched by `[A-Fa-f0-9]`. -/
def isHexChar (c : Char) : Bool :=
  c.isDigit || ('a' ≤ c && c ≤ 'f') || ('A' ≤ c && c ≤ 'F')

/-- `UETR_PATTERN` (validator.py line 43): fullmatch of `[A-Fa-f0-9]{32}` —
exactly 32 hexadecimal characters, no hyphens. -/
def uetrPatternMatches (s : String) : Bool :=
  s.length == 32 && strAll s isHexChar

/-- Python `float(text)` acceptance: after an optional sign, either a
case-insensitive inf/infinity/nan, or a decimal literal (digit groups with
single underscores between digits, an optional point, an optional exponent),
the whole string consumed. The argument is already stripped at every call
site, so surrounding whitespace is out of scope. -/
def digitPartRest : List Char → List Char
  | '_' :: c :: rest => if c.isDigit then digitPartRest rest else '_' :: c :: rest
  | c :: rest => if c.isDigit then digitPartRest rest else c :: rest
  | [] => []

/-- Consume a Python digit group (digit, then digits with single underscores
between them); `none` when no leading digit. -/
def takeDigitPart : List Char → Option (List Char)
  | c :: rest => if c.isDigit then some (digitPartRest rest) else none
  | [] => none

/-- Consume an optional exponent and require the end of the string. -/
def floatExpTail : List Char → Bool
  | [] => true
  | c :: rest =>
    if c == 'e' || c == 'E' then
      let rest2 := match rest with
        | '+' :: t => t
        | '-' :: t => t
        | t => t
      match takeDigitPart rest2 with
      | some [] => true
      | _ => false
    else false

/-- The part of a float literal after the integer digit group. -/
def floatFracTail : List Char → Bool
  | '.' :: rest =>
    (match takeDigitPart rest with
     | some rest2 => floatExpTail rest2
     | none => floatExpTail rest)
  | rest => floatExpTail rest

/-- Whether `float(s)` succeeds on the (already stripped) string `s`. -/
def pyFloatAccepts (s : String) : Bool :=
  let cs := match s.toList with
    | '+' :: rest => rest
    | '-' :: rest => rest
    | rest => rest
  let lower := cs.map Char.toLower
  if lower == "inf".toList || lower == "infinity".toList || lower == "nan".toList then
    true
  else
    match takeDigitPart cs with
    | some rest => floatFracTail rest
    | none =>
      match cs with
      | '.' :: rest =>
        (match takeDigitPart rest with
         | some rest2 => floatExpTail rest2
         | none => false)
      | _ => false

/-- The amount-value checks of `_validate_transactions` (lines 330–347): a
placeholder amount yields the placeholder error; otherwise a value `float`
cannot parse yields the numeric error. -/
def sarAmountValueErrors (amountText : String) (location : String) :
    List ValidationError :=
  if isPlaceholder (some amountText) then
    [mkValidationError "Amount must be provided instead of a placeholder."
      (some location) "error"]
  else if pyFloatAccepts amountText then []
  else
    [mkValidationError "Amount must be numeric." (some location) "error"]

/-- The currency-attribute checks of `_validate_transactions` (lines 349–365). -/
def sarCurrencyErrors (currency : Option String) (location : String) :
    List ValidationError :=
  match currency with
  | none =>
    [mkValidationError "Amount currency code is required." (some location) "error"]
  | some c =>
    if isPlaceholder (some c) then
      [mkValidationError "Amount currency code is required." (some location) "error"]
    else
      let nc := pyStrip c
      if nc.length == 3 && strAll nc Char.isAlpha then []
      else
        [mkValidationError "Amount currency code must be a three-letter code."
          (some location) "error"]

/-- The UETR checks of `_validate_transactions` (lines 367–383). -/
def sarUetrErrors (txn : Element) (index : Nat) : List ValidationError :=
  match txn.findTag "UETR" with
  | none =>
    [mkValidationError "Transaction is missing a <UETR> element."
      (some ("/SAR/Transactions/Transaction[" ++ toString index ++ "]")) "error"]
  | some uetr =>
    let uetrValue := normaliseText uetr.text
    if uetrPatternMatches uetrValue then []
    else
      [mkValidationError "UETR must be a 32-character hexadecimal string."
        (some ("/SAR/Transactions/Transaction[" ++ toString index ++ "]/UETR")) "error"]

/-- The per-transaction body of `_validate_transactions`. A missing `<Amount>`
element hits `continue`: the currency and UETR checks are skipped for that
transaction. -/
def sarTransactionErrors (p : Nat × Element) : List ValidationError :=
  let index := p.1
  let txn := p.2
  let amountLocation := "/SAR/Transactions/Transaction[" ++ toString index ++ "]/Amount"
  let rd := validateRequiredText txn "Date"
    ("/SAR/Transactions/Transaction[" ++ toString index ++ "]/Date")
    "Transaction is missing a <Date> element."
    (some "Transaction date cannot be empty or a placeholder.")
  let dateErrs :=
    match rd.2 with
    | some dv =>
      if dv == "" then []
      else validateDate dv
        ("/SAR/Transactions/Transaction[" ++ toString index ++ "]/Date")
        "Transaction date"
    | none => []
  match txn.findTag "Amount" with
  | none =>
    rd.1 ++ dateErrs ++
      [mkValidationError "Transaction is missing an <Amount> element."
        (some amountLocation) "error"]
  | some amount =>
    let amountText := normaliseText amount.text
    rd.1 ++ dateErrs ++
      sarAmountValueErrors amountText amountLocation ++
      sarCurrencyErrors (amount.getAttr "currency") amountLocation ++
      sarUetrErrors txn index

/-- `_validate_transactions`. -/
def validateTransactions (root : Element) : List ValidationError :=
  (enumFrom 1 (root.findAll2 "Transactions" "Transaction")).flatMap sarTransactionErrors

/-- `validate_string` after a successful parse: the root-tag gate, then the
five check groups in order. -/
def validateRoot (root : Element) : ValidationResult :=
  if root.tag ≠ "SAR" then
    ⟨[mkValidationError "Root element must be <SAR>." (some ("/" ++ root.tag)) "error"]⟩
  else
    ⟨validateRequiredBlocks root ++ validateFilingInformation root ++
      validateFilerInformation root ++ validateSubjects root ++
      validateTransactions root⟩

/-- `validate_string`, with the outcome of `ET.fromstring` passed explicitly:
a parse error becomes a single malformed-XML error at location "/". -/
def validateString (parsed : Except String Element) : ValidationResult :=
  match parsed with
  | .error exc =>
    ⟨[mkValidationError ("Malformed XML: " ++ exc ++ ".") (some "/") "error"]⟩
  | .ok root => validateRoot root

/-- `DRIVE_MAPPINGS` (validator.py line 44). -/
def DRIVE_MAPPINGS : List (Char × String × String) :=
  [('G', "\\\\\\\\nas\\\\Cloud-GDrive", "Google Drive"),
   ('I', "\\\\\\\\nas\\\\Cloud-iCloud", "iCloud"),
   ('O', "\\\\\\\\nas\\\\Cloud-OneDrive", "OneDrive")]

/-- `_nas_drive_hint`: a hint when the path starts with a mapped drive letter,
a colon and a slash or backslash. -/
def nasDriveHint (path : String) : Option String :=
  match path.toList with
  | c1 :: ':' :: c2 :: _ =>
    if c1.isAlpha && (c2 == '/' || c2 == '\\') then
      match (DRIVE_MAPPINGS.find? (fun m => m.1 == c1.toUpper)).map Prod.snd with
      | some (mapped, service) =>
        some ("Drive " ++ String.mk [c1.toUpper] ++ ": is mapped to '" ++ mapped ++
          "' (" ++ service ++ "). Try reconnecting the network drive or using the UNC path.")
      | none => none
    else none
  | _ => none

/-- The read-failure message of `validate_file`, hint appended when present. -/
def readFailureMessage (pathStr exc : String) : String :=
  let base := "Unable to read file '" ++ pathStr ++ "': " ++ exc ++ "."
  match nasDriveHint pathStr with
  | some hint => base ++ " " ++ hint
  | none => base

/-- `validate_file`, with the outcome of reading the file and of parsing its
text passed explicitly: a read failure becomes a single error located at the
path string, otherwise the text is validated as by `validate_string`. -/
def validateFile (readOutcome : Except String String) (pathStr : String)
    (parse : String → Except String Element) : ValidationResult :=
  match readOutcome with
  | .error exc =>
    ⟨[mkValidationError (readFailureMessage pathStr exc) (some pathStr) "error"]⟩
  | .ok text => validateString (parse text)

end SarParser

namespace SarParser

/-! Embedding of src/sar_parser/pipeline.py.

`emit_log` and `emit_metric` mutate no state the claims mention (the metrics
and logger collaborators are optional no-op sinks), so the model records only
the calls made on the transaction manager and the repository, in order. -/

/-- One call on the persistence collaborators: `TransactionManager.begin`,
`SARRepository.save`, `TransactionManager.commit`, `TransactionManager.rollback`.
An event is recorded when the call is made, whether or not it raises. -/
inductive PipeEvent where
  | txBegin
  | repoSave
  | txCommit
  | txRollback
deriving Repr, DecidableEq

/-- Behaviour of the external collaborators for one `process` call: for each
call, `none` means it returns normally and `some e` means it raises `e`. -/
structure CollabBehavior where
  beginError : Option String
  saveError : Option String
  commitError : Option String
  rollbackError : Option String
deriving Repr, DecidableEq

/-- Modelled from the spec: `SARProcessor.process` calls an instrumented
validator entry point `validate_string(xml_text, correlation_id=…, logger=…,
metrics=…)` that is not among the repository's files (the checked-in
`sar_parser.validator.validate_string` accepts only `xml_text`, and the
package `__init__` likewise imports a `validate_document` that no file
defines). Per the spec the rule engine is a pure function of the document —
its top-level entry point only additionally emits instrumentation, a no-op
here — so the missing entry point is modelled as an arbitrary function from
document text to `ValidationResult`. -/
def PipelineValidator : Type := String → ValidationResult

/-- `SARProcessor.process` (pipeline.py lines 68–203) together with
`TransactionContext` (lines 37–56): validate; when invalid, return the result
with no collaborator call; otherwise `begin`, `save`, and on a clean body
`commit` (rolling back and re-raising when `commit` raises), while an
exception from the body triggers `rollback` and is re-raised — the outer
`except` re-raises after instrumentation only. An exception raised by
`rollback` itself propagates in place of the one being handled, as in Python.
Returns the outcome and the ordered collaborator calls. -/
def processRun (validator : PipelineValidator) (c : CollabBehavior)
    (xmlText _correlationId : String) :
    Except String ValidationResult × List PipeEvent :=
  let validation := validator xmlText
  if !validation.is_valid then
    (.ok validation, [])
  else
    match c.beginError with
    | some e => (.error e, [.txBegin])
    | none =>
      match c.saveError with
      | some e =>
        match c.rollbackError with
        | some e2 => (.error e2, [.txBegin, .repoSave, .txRollback])
        | none => (.error e, [.txBegin, .repoSave, .txRollback])
      | none =>
        match c.commitError with
        | some e =>
          match c.rollbackError with
          | some e2 => (.error e2, [.txBegin, .repoSave, .txCommit, .txRollback])
          | none => (.error e, [.txBegin, .repoSave, .txCommit, .txRollback])
        | none => (.ok validation, [.txBegin, .repoSave, .txCommit])

/-! Embedding of src/sar_parser/live_update.py. -/

/-- A `LiveUpdate` as far as the claims reach: the poll timestamp and the
validation result (the watched path is fixed per monitor). -/
structure LiveUpdate where
  timestamp : Nat
  result : ValidationResult
deriving Repr, DecidableEq

/-- `LiveUpdateMonitor.poll_once` (live_update.py lines 51–68). Inputs: the
validator, the content-signature function (`hashlib.sha256(...).hexdigest()`),
the stored `_last_signature`, the outcome of reading the file (`none` means
`FileNotFoundError`) and the current time. Output: the optional `LiveUpdate`,
the new `_last_signature`, and whether the validator was invoked. -/
def pollOnce (validator : String → ValidationResult) (hashFn : String → String)
    (lastSignature : Option String) (readOutcome : Option String) (now : Nat) :
    Option LiveUpdate × Option String × Bool :=
  match readOutcome with
  | none => (none, none, false)
  | some text =>
    let signature := hashFn text
    if some signature == lastSignature then
      (none, lastSignature, false)
    else
      (some ⟨now, validator text⟩, some signature, true)

end SarParser

namespace StopAzs

/-! Embedding of src/stop_azs/validation.py. A transaction element is
projected to the three children the checks read (`txn.find("ns:Date")`,
`txn.find("ns:Amount")`, `txn.find("ns:UETR")`): the outer Option is element
presence, the inner Option the element's `.text`. -/

/-- The `ValidationIssue` dataclass. -/
structure ValidationIssue where
  code : String
  message : String
  severity : String
  context : Option String
deriving Repr, DecidableEq

/-- `PLACEHOLDER_VALUES` (validation.py line 31):
`{"pending", "tbd", "unknown", "n/a", "na"}`. -/
def PLACEHOLDER_VALUES : List String :=
  ["pending", "tbd", "unknown", "n/a", "na"]

/-- One transaction, projected to the children the validator reads. -/
structure SarTxn where
  dateEl : Option (Option String)
  amountEl : Option (Option String)
  uetrEl : Option (Option String)

/-- `SarValidator._find_text` applied to a `find` result: strip the text and
turn an absent element, absent text or empty remainder into `None`. -/
def findText (el : Option (Option String)) : Option String :=
  match el with
  | none => none
  | some t =>
    match t with
    | none => none
    | some txt =>
      let s := SarParser.pyStrip txt
      if s == "" then none else some s

/-- `SarValidator._parse_iso_date`: the same `strptime(value, "%Y-%m-%d")`. -/
def parseIsoDate (s : String) : Option (Nat × Nat × Nat) :=
  SarParser.parseStrptimeYmd s

/-- `parsed > self.today` on dates as (year, month, day) triples. -/
def dateTripleGt (a b : Nat × Nat × Nat) : Bool :=
  a.1 > b.1 || (a.1 == b.1 &&
    (a.2.1 > b.2.1 || (a.2.1 == b.2.1 && a.2.2 > b.2.2)))

/-- Zero-padded decimal rendering, two digits. -/
def pad2 (n : Nat) : String :=
  if n < 10 then "0" ++ toString n else toString n

/-- Zero-padded decimal rendering, four digits. -/
def pad4 (n : Nat) : String :=
  if n < 10 then "000" ++ toString n
  else if n < 100 then "00" ++ toString n
  else if n < 1000 then "0" ++ toString n
  else toString n

/-- `date.isoformat()`. -/
def isoFormat (d : Nat × Nat × Nat) : String :=
  pad4 d.1 ++ "-" ++ pad2 d.2.1 ++ "-" ++ pad2 d.2.2

/-- A value of Python's `Decimal` as far as `Decimal(value) > 0` needs it:
a finite value is a sign, a coefficient and a power-of-ten exponent. -/
inductive PyDecimal where
  | finite (neg : Bool) (coeff : Nat) (exp : Int)
  | inf (neg : Bool)
  | nan
deriving Repr, DecidableEq

/-- Digits to the natural number they denote. -/
def digitsToNat (cs : List Char) : Nat :=
  cs.foldl (fun acc c => acc * 10 + (c.toNat - '0'.toNat)) 0

/-- `Decimal(value)` on an already-stripped string, per the decimal
numeric-string grammar: optional sign, then a case-insensitive
`Inf`/`Infinity`, a `NaN`/`sNaN` with optional diagnostic digits, or a
coefficient (digits with an optional point, at least one digit) with an
optional exponent. CPython removes underscores anywhere in the string before
parsing, so the model filters them out first. `none` means `InvalidOperation`. -/
def parseDecimalLit (s : String) : Option PyDecimal :=
  let cs0 := s.toList.filter (fun c => c != '_')
  let (neg, cs) := match cs0 with
    | '+' :: rest => (false, rest)
    | '-' :: rest => (true, rest)
    | rest => (false, rest)
  let lower := cs.map Char.toLower
  if lower == "inf".toList || lower == "infinity".toList then
    some (.inf neg)
  else if lower.take 3 == "nan".toList && (lower.drop 3).all Char.isDigit then
    some .nan
  else if lower.take 4 == "snan".toList && (lower.drop 4).all Char.isDigit then
    some .nan
  else
    let intDigits := cs.takeWhile Char.isDigit
    let afterInt := cs.dropWhile Char.isDigit
    let fracDigits := match afterInt with
      | '.' :: r => r.takeWhile Char.isDigit
      | _ => []
    let afterFrac := match afterInt with
      | '.' :: r => r.dropWhile Char.isDigit
      | r => r
    if intDigits.isEmpty && fracDigits.isEmpty then none
    else
      let coeff := digitsToNat (intDigits ++ fracDigits)
      let fracExp : Int := -(fracDigits.length : Int)
      match afterFrac with
      | [] => some (.finite neg coeff fracExp)
      | e :: rest =>
        if e == 'e' || e == 'E' then
          let (expNeg, rest2) := match rest with
            | '+' :: t => (false, t)
            | '-' :: t => (true, t)
            | t => (false, t)
          if !rest2.isEmpty && rest2.all Char.isDigit then
            let ev : Int := (digitsToNat rest2 : Int)
            some (.finite neg coeff (fracExp + (if expNeg then -ev else ev)))
          else none
        else none

/-- `SarValidator._is_positive_decimal`: `Decimal(value) > 0`, with
`InvalidOperation` (including the one a NaN comparison raises) caught and
turned into `False`. -/
def isPositiveDecimal (s : String) : Bool :=
  match parseDecimalLit s with
  | some (.finite neg coeff _) => !neg && coeff != 0
  | some (.inf neg) => !neg
  | some .nan => false
  | none => false

/-- The 8-4-4-4-12 GUID regex of `SarValidator._check_uetr` (line 213): since
a hyphen is never a hex character, fullmatch is equivalent to this split. -/
def uetrGuidPattern (s : String) : Bool :=
  match SarParser.splitStrOnChar '-' s with
  | [a, b, c, d, e] =>
    a.length == 8 && b.length == 4 && c.length == 4 && d.length == 4 &&
      e.length == 12 && SarParser.strAll a SarParser.isHexChar &&
      SarParser.strAll b SarParser.isHexChar &&
      SarParser.strAll c SarParser.isHexChar &&
      SarParser.strAll d SarParser.isHexChar &&
      SarParser.strAll e SarParser.isHexChar
  | _ => false

/-- `SarValidator._check_uetr`. -/
def checkUetr (txns : List SarTxn) : List ValidationIssue :=
  (SarParser.enumFrom 1 txns).flatMap (fun p =>
    let context := "Transactions/Transaction[" ++ toString p.1 ++ "]/UETR"
    match p.2.uetrEl with
    | none =>
      [⟨"missing_uetr_element", "Transaction is missing UETR element.",
        "error", some context⟩]
    | some txt =>
      let value := SarParser.pyStrip (txt.getD "")
      if value == "" then
        [⟨"missing_uetr", "Transaction UETR is empty.", "error", some context⟩]
      else if PLACEHOLDER_VALUES.contains (SarParser.pyLower value) then
        [⟨"placeholder_uetr",
          "Transaction UETR contains placeholder value '" ++ value ++ "'.",
          "error", some context⟩]
      else if uetrGuidPattern value then []
      else
        [⟨"invalid_uetr_format",
          "Transaction UETR must follow the 8-4-4-4-12 GUID pattern.",
          "warning", some context⟩])

/-- Lookup in the `seen` mapping of `_check_duplicate_uetr`. -/
def assocFind (seen : List (String × Nat)) (key : String) : Option Nat :=
  (seen.find? (fun p => p.1 == key)).map Prod.snd

/-- The duplicate issue `_check_duplicate_uetr` emits at transaction `i` for a
value first seen at transaction `firstIndex`. -/
def dupIssue (value : String) (i firstIndex : Nat) : ValidationIssue :=
  ⟨"duplicate_uetr",
   "Transaction UETR '" ++ value ++ "' duplicates value from Transaction[" ++
     toString firstIndex ++ "].",
   "error",
   some ("Transactions/Transaction[" ++ toString i ++ "]/UETR")⟩

/-- The loop of `_check_duplicate_uetr`: `i` the 1-based index of the next
transaction, `seen` the normalized values already encountered with their first
index. -/
def dupGo (i : Nat) (seen : List (String × Nat)) : List SarTxn → List ValidationIssue
  | [] => []
  | txn :: rest =>
    match findText txn.uetrEl with
    | none => dupGo (i + 1) seen rest
    | some value =>
      let normalized := SarParser.pyLower value
      if PLACEHOLDER_VALUES.contains normalized then dupGo (i + 1) seen rest
      else
        match assocFind seen normalized with
        | some firstIndex => dupIssue value i firstIndex :: dupGo (i + 1) seen rest
        | none => dupGo (i + 1) ((normalized, i) :: seen) rest

/-- `SarValidator._check_duplicate_uetr`. -/
def checkDuplicateUetr (txns : List SarTxn) : List ValidationIssue :=
  dupGo 1 [] txns

/-- The normalized identifier the duplicate check tracks for a transaction:
`None` when the UETR text is absent, empty or a placeholder. -/
def uetrKey (txn : SarTxn) : Option String :=
  match findText txn.uetrEl with
  | none => none
  | some value =>
    let normalized := SarParser.pyLower value
    if PLACEHOLDER_VALUES.contains normalized then none else some normalized

/-- First 1-based position (counting from `i`) of a transaction whose tracked
identifier is `key`. -/
def firstIdxAux (i : Nat) (key : String) : List SarTxn → Option Nat
  | [] => none
  | t :: ts => if uetrKey t == some key then some i else firstIdxAux (i + 1) key ts

/-- The 1-based index of the first transaction carrying identifier `key`. -/
def firstOccurrenceIndex (txns : List SarTxn) (key : String) : Option Nat :=
  firstIdxAux 1 key txns

/-- Written from the claim's words, for comparison with `checkDuplicateUetr`:
what transaction `p` contributes — nothing when it has no tracked identifier
or is the first occurrence, and exactly one duplicate issue referencing the
first occurrence's index otherwise. -/
def specDupBody (txns : List SarTxn) (p : Nat × SarTxn) : List ValidationIssue :=
  match findText p.2.uetrEl with
  | none => []
  | some value =>
    let normalized := SarParser.pyLower value
    if PLACEHOLDER_VALUES.contains normalized then []
    else
      match firstOccurrenceIndex txns normalized with
      | some j => if j < p.1 then [dupIssue value p.1 j] else []
      | none => []

/-- Written from the claim's words: the second and subsequent occurrences of
each identifier, each flagged once with the first occurrence's index. -/
def specDuplicateIssues (txns : List SarTxn) : List ValidationIssue :=
  (SarParser.enumFrom 1 txns).flatMap (specDupBody txns)

/-- The amount branch of `_check_transactions` (lines 169–208). -/
def amountIssues (amountEl : Option (Option String)) (txnContext : String) :
    List ValidationIssue :=
  match amountEl with
  | some txt =>
    let amountText := SarParser.pyStrip (txt.getD "")
    if amountText == "" then
      [⟨"missing_amount", "Transaction amount is missing a value.", "error",
        some (txnContext ++ "/Amount")⟩]
    else if PLACEHOLDER_VALUES.contains (SarParser.pyLower amountText) then
      [⟨"placeholder_amount",
        "Transaction amount contains placeholder value '" ++ amountText ++ "'.",
        "error", some (txnContext ++ "/Amount")⟩]
    else if isPositiveDecimal amountText then []
    else
      [⟨"invalid_amount",
        "Transaction amount '" ++ amountText ++ "' is not a valid positive decimal.",
        "error", some (txnContext ++ "/Amount")⟩]
  | none =>
    [⟨"missing_amount_element", "Transaction is missing Amount element.",
      "error", some txnContext⟩]

/-- The date branch of `_check_transactions` (lines 139–168). -/
def txnDateIssues (today : Nat × Nat × Nat) (dateEl : Option (Option String))
    (txnContext : String) : List ValidationIssue :=
  match findText dateEl with
  | some dateText =>
    match parseIsoDate dateText with
    | none =>
      [⟨"invalid_transaction_date",
        "Transaction date '" ++ dateText ++ "' is not a valid ISO-8601 date.",
        "error", some (txnContext ++ "/Date")⟩]
    | some parsed =>
      if dateTripleGt parsed today then
        [⟨"future_transaction_date",
          "Transaction date " ++ dateText ++
            " occurs in the future relative to today (" ++ isoFormat today ++ ").",
          "warning", some (txnContext ++ "/Date")⟩]
      else []
  | none =>
    [⟨"missing_transaction_date", "Transaction is missing Date element or value.",
      "error", some (txnContext ++ "/Date")⟩]

/-- `SarValidator._check_transactions`: the container gates, then the
per-transaction date and amount checks. -/
def checkTransactions (today : Nat × Nat × Nat) (containerPresent : Bool)
    (txns : List SarTxn) : List ValidationIssue :=
  if !containerPresent then
    [⟨"missing_transactions_section",
      "Transactions element is missing from the filing.", "error",
      some "Transactions"⟩]
  else if txns.isEmpty then
    [⟨"missing_transaction_entries",
      "Transactions element does not contain any Transaction entries.", "error",
      some "Transactions"⟩]
  else
    (SarParser.enumFrom 1 txns).flatMap (fun p =>
      let txnContext := "Transactions/Transaction[" ++ toString p.1 ++ "]"
      txnDateIssues today p.2.dateEl txnContext ++
        amountIssues p.2.amountEl txnContext)

end StopAzs

/-! Auxiliary definitions used by the claim statements: concrete documents
(following tests/test_validator.py and tests/test_uetr_validation.py), and
spec-side predicates written from the spec's words for comparison with the
embedded code. -/

namespace SarParser

/-- An element with text and no children or attributes. -/
def leaf (tag : String) (txt : String) : Element :=
  ⟨tag, [], some txt, []⟩

/-- An element with children and no text or attributes. -/
def node (tag : String) (children : List Element) : Element :=
  ⟨tag, [], none, children⟩

/-- The 32-character hexadecimal UETR of tests/test_validator.py. -/
def hexUetr : String := "1234567890abcdef1234567890ABCDEF"

/-- The hyphenated UUID of tests/test_uetr_validation.py, and its raw
32-character hexadecimal form. -/
def uuidUetr : String := "550e8400-e29b-41d4-a716-446655440000"

/-- `uuidUetr` without hyphens. -/
def rawHexUetr : String := "550e8400e29b41d4a716446655440000"

/-- A transaction with a valid date, amount and currency, and the given UETR. -/
def sampleTransaction (uetr : String) : Element :=
  node "Transaction"
    [leaf "Date" "2024-04-30",
     ⟨"Amount", [("currency", "USD")], some "1000.50", []⟩,
     leaf "UETR" uetr]

/-- The well-formed document of tests/test_validator.py, parameterised by the
transaction's UETR: one valid filing block, one valid filer block, one
subject, one transaction. -/
def sampleDoc (uetr : String) : Element :=
  node "SAR"
    [node "FilingInformation"
      [leaf "FilingType" "Initial",
       leaf "FilingDate" "2024-05-01",
       leaf "AmendmentType" "None"],
     node "FilerInformation"
      [leaf "FilerName" "Example Financial",
       node "FilerAddress"
        [leaf "AddressLine1" "123 Main St",
         leaf "City" "New York",
         leaf "State" "NY",
         leaf "ZIP" "10001",
         leaf "Country" "US"]],
     node "Subjects"
      [node "Subject"
        [leaf "Name" "John Doe",
         leaf "EntityType" "Individual"]],
     node "Transactions" [sampleTransaction uetr]]

/-- The placeholder set the spec names: `{"", "UNKNOWN", "PENDING", "TBD",
"N/A", "NA", "NOT APPLICABLE"}`. Written from the spec's words, for
comparison with the two modules' actual sets. -/
def specPlaceholderSet : List String :=
  ["", "UNKNOWN", "PENDING", "TBD", "N/A", "NA", "NOT APPLICABLE"]

/-- Number of fractional digits of a decimal literal, from the spec's words
("must not carry more than two fractional digits"). -/
def fractionalDigitCount (s : String) : Nat :=
  match splitStrOnChar '.' s with
  | [_, f] => f.length
  | _ => 0

/-- The exact rational value of a finite decimal (sign, coefficient,
power-of-ten exponent), from the spec's words ("exact decimal arithmetic"). -/
def decimalValue (neg : Bool) (coeff : Nat) (exp : Int) : ℚ :=
  (if neg then -1 else 1) * (coeff : ℚ) * (10 : ℚ) ^ exp

/-- Every error in the list has a location that is not the empty string. -/
def ErrorsLocOk (l : List ValidationError) : Prop :=
  ∀ e ∈ l, e.location ≠ some ""

/-- A validator whose result carries one error, for witnesses. -/
def invalidDocValidator : PipelineValidator := fun _ =>
  ⟨[mkValidationError "Root element must be <SAR>." (some "/Rec") "error"]⟩

/-- A validator whose result is empty (hence valid), for witnesses. -/
def emptyResultValidator : PipelineValidator := fun _ => ⟨[]⟩

/-- A result holding a single warning-severity entry. -/
def warningOnlyResult : ValidationResult :=
  ⟨[mkValidationError "FilingDate 2999-01-01 occurs in the future."
      (some "/SAR/FilingInformation/FilingDate") "warning"]⟩

end SarParser

namespace StopAzs

/-- A transaction carrying only a UETR element with the given text. -/
def txnWithUetr (u : String) : SarTxn := ⟨none, none, some (some u)⟩

end StopAzs

namespace SarParser

/-- A subject element with a name and an entity type. -/
def mkSubject (p : String × String) : Element :=
  node "Subject" [leaf "Name" p.1, leaf "EntityType" p.2]

/-- A transaction element from (date, amount, currency, uetr). -/
def mkTransaction (t : String × String × String × String) : Element :=
  node "Transaction"
    [leaf "Date" t.1,
     ⟨"Amount", [("currency", t.2.2.1)], some t.2.1, []⟩,
     leaf "UETR" t.2.2.2]

/-- A fully populated SAR document: one filing block, one filer block with a
full address, the given subjects and the given transactions. -/
def mkSARDoc (ft fd amend fn a1 city st zip ctry : String)
    (subjects : List (String × String))
    (txns : List (String × String × String × String)) : Element :=
  node "SAR"
    [node "FilingInformation"
      [leaf "FilingType" ft, leaf "FilingDate" fd, leaf "AmendmentType" amend],
     node "FilerInformation"
      [leaf "FilerName" fn,
       node "FilerAddress"
        [leaf "AddressLine1" a1, leaf "City" city, leaf "State" st,
         leaf "ZIP" zip, leaf "Country" ctry]],
     node "Subjects" (subjects.map mkSubject),
     node "Transactions" (txns.map mkTransaction)]

/-- A field value that is already stripped and is not a placeholder. -/
def CleanText (s : String) : Prop :=
  pyStrip s = s ∧ isPlaceholder (some s) = false

end SarParser

/-! Theorems. -/

namespace SarParser

/-- C1: for every document text and correlation id, if validation produces a
result that is not valid, `SARProcessor.process` returns that
`ValidationResult` and makes no call on the transaction manager or the
repository (no begin, commit, rollback or save). -/
theorem process_invalid_no_persistence (validator : PipelineValidator)
    (c : CollabBehavior) (xmlText correlationId : String)
    (h : (validator xmlText).is_valid = false) :
    processRun validator c xmlText correlationId = (.ok (validator xmlText), []) := by
  simp [processRun, h]

/-- Witness for C1 at a concrete invalid document. -/
theorem process_invalid_no_persistence_witness :
    (invalidDocValidator "<Rec/>").is_valid = false ∧
    processRun invalidDocValidator ⟨none, none, none, none⟩ "<Rec/>" "cid-1" =
      (.ok (invalidDocValidator "<Rec/>"), []) :=
  ⟨rfl, process_invalid_no_persistence invalidDocValidator
    ⟨none, none, none, none⟩ "<Rec/>" "cid-1" rfl⟩

/-- C2: for every document text that validates successfully, if the
repository's save raises inside `SARProcessor.process`, the transaction
manager observes exactly the call sequence begin, save attempt, rollback —
commit is never called — and the original exception propagates to the
caller. -/
theorem process_save_failure_rolls_back (validator : PipelineValidator)
    (c : CollabBehavior) (xmlText correlationId e : String)
    (hv : (validator xmlText).is_valid = true)
    (hb : c.beginError = none) (hs : c.saveError = some e)
    (hr : c.rollbackError = none) :
    processRun validator c xmlText correlationId =
      (.error e, [.txBegin, .repoSave, .txRollback]) := by
  simp [processRun, hv, hb, hs, hr]

/-- Witness for C2 at a concrete valid document and failing save. -/
theorem process_save_failure_rolls_back_witness :
    (emptyResultValidator "<SAR/>").is_valid = true ∧
    processRun emptyResultValidator ⟨none, some "storage failure", none, none⟩
        "<SAR/>" "abc-123" =
      (.error "storage failure", [.txBegin, .repoSave, .txRollback]) :=
  ⟨rfl, process_save_failure_rolls_back emptyResultValidator
    ⟨none, some "storage failure", none, none⟩ "<SAR/>" "abc-123"
    "storage failure" rfl rfl rfl rfl⟩

/-- C9: `poll_once` clears the stored signature and returns absent on a
missing file; returns absent without running the validator when the content
signature equals the stored one; stores the new signature, runs the validator
and returns a `LiveUpdate` when it differs; and a `LiveUpdate` is produced
only on a signature change. -/
theorem poll_once_signature_semantics (validator : String → ValidationResult)
    (hashFn : String → String) (lastSig readOutcome : Option String) (now : Nat) :
    (readOutcome = none →
      pollOnce validator hashFn lastSig readOutcome now = (none, none, false)) ∧
    (∀ text, readOutcome = some text → lastSig = some (hashFn text) →
      pollOnce validator hashFn lastSig readOutcome now = (none, lastSig, false)) ∧
    (∀ text, readOutcome = some text → lastSig ≠ some (hashFn text) →
      pollOnce validator hashFn lastSig readOutcome now =
        (some ⟨now, validator text⟩, some (hashFn text), true)) ∧
    (∀ u newSig ran,
      pollOnce validator hashFn lastSig readOutcome now = (some u, newSig, ran) →
      ∃ text, readOutcome = some text ∧ lastSig ≠ some (hashFn text) ∧
        u = ⟨now, validator text⟩ ∧ newSig = some (hashFn text) ∧ ran = true) := by
  refine ⟨?_, ?_, ?_, ?_⟩
  · intro h
    simp [pollOnce, h]
  · intro text h hsig
    simp [pollOnce, h, hsig]
  · intro text h hsig
    have : (some (hashFn text) == lastSig) = false := by
      simp only [beq_eq_false_iff_ne]
      exact fun hc => hsig hc.symm
    simp [pollOnce, h, this]
  · intro u newSig ran h
    cases hr : readOutcome with
    | none => rw [hr] at h; simp [pollOnce] at h
    | some text =>
      rw [hr] at h
      simp only [pollOnce] at h
      by_cases hsig : (some (hashFn text) == lastSig) = true
      · rw [if_pos hsig] at h
        simp at h
      · rw [if_neg hsig] at h
        have hne : lastSig ≠ some (hashFn text) := by
          intro hc
          exact hsig (by simp [hc])
        simp only [Prod.mk.injEq, Option.some.injEq] at h
        exact ⟨text, rfl, hne, h.1.symm, h.2.1.symm, h.2.2.symm⟩

/-- C4 counterexample: a result holding a single warning-severity entry has no
severity-"error" entry, yet `is_valid` is false — the claim's biconditional
fails at this concrete value. -/
theorem is_valid_warning_only_counterexample :
    warningOnlyResult.errors.all (fun e => e.severity != "error") = true ∧
    warningOnlyResult.is_valid = false := by
  decide

/-- C4 amended: `is_valid` holds iff the result contains no entries at all —
any entry, of any severity, invalidates the result. -/
theorem is_valid_iff_no_entries (r : ValidationResult) :
    r.is_valid = true ↔ r.errors = [] := by
  simp [ValidationResult.is_valid]

end SarParser

namespace SarParser

/-- C3 (evaluation at the failing input): the well-formed document of the
repository's own test suite is valid when its transaction identifier is the
32-character hexadecimal string, but the same document with the identifier in
canonical hyphenated-UUID form is rejected with a UETR format error — though
the claim (and tests/test_uetr_validation.py) accept both forms. -/
theorem validate_string_uuid_uetr_eval :
    (validateRoot (sampleDoc hexUetr)).is_valid = true ∧
    (validateRoot (sampleDoc uuidUetr)).is_valid = false ∧
    (validateRoot (sampleDoc uuidUetr)).errors =
      [mkValidationError "UETR must be a 32-character hexadecimal string."
        (some "/SAR/Transactions/Transaction[1]/UETR") "error"] := by
  decide

/-- C5 (evaluation at the failing input): the sar_parser UETR pattern accepts
only the raw 32-hexadecimal form and rejects the hyphenated UUID (emitting
the format error), while the stop_azs pattern accepts only the hyphenated
8-4-4-4-12 form and flags the raw form with a warning-severity format issue —
neither check accepts both forms as the claim states. -/
theorem uetr_pattern_forms_eval :
    uetrPatternMatches rawHexUetr = true ∧
    uetrPatternMatches uuidUetr = false ∧
    sarUetrErrors (node "Transaction" [leaf "UETR" uuidUetr]) 1 =
      [mkValidationError "UETR must be a 32-character hexadecimal string."
        (some "/SAR/Transactions/Transaction[1]/UETR") "error"] ∧
    StopAzs.uetrGuidPattern uuidUetr = true ∧
    StopAzs.uetrGuidPattern rawHexUetr = false ∧
    StopAzs.checkUetr [StopAzs.txnWithUetr rawHexUetr] =
      [⟨"invalid_uetr_format",
        "Transaction UETR must follow the 8-4-4-4-12 GUID pattern.",
        "warning", some "Transactions/Transaction[1]/UETR"⟩] := by
  decide

/-- C6 counterexample: "TBD" is in the placeholder set the claim names, yet
the sar_parser amount check reports the numeric format error, not the
placeholder error, and the stop_azs amount check maps the empty string to its
missing-value issue, not a placeholder issue. -/
theorem amount_tbd_counterexample :
    specPlaceholderSet.contains "TBD" = true ∧
    sarAmountValueErrors "TBD" "/SAR/Transactions/Transaction[1]/Amount" =
      [mkValidationError "Amount must be numeric."
        (some "/SAR/Transactions/Transaction[1]/Amount") "error"] ∧
    StopAzs.amountIssues (some (some "")) "Transactions/Transaction[1]" =
      [⟨"missing_amount", "Transaction amount is missing a value.", "error",
        some "Transactions/Transaction[1]/Amount"⟩] := by
  decide

/-- C7 counterexample: "1.234" carries three fractional digits, so the claim
requires it rejected, yet the sar_parser amount check produces no error and
the stop_azs decimal check accepts it; "-5" is negative yet produces no
sar_parser error; "0" is non-negative yet the stop_azs check rejects it. -/
theorem amount_three_decimals_counterexample :
    fractionalDigitCount "1.234" = 3 ∧
    sarAmountValueErrors "1.234" "/SAR/Transactions/Transaction[1]/Amount" = [] ∧
    StopAzs.isPositiveDecimal "1.234" = true ∧
    sarAmountValueErrors "-5" "/SAR/Transactions/Transaction[1]/Amount" = [] ∧
    StopAzs.isPositiveDecimal "0" = false := by
  decide

end SarParser

namespace SarParser

/-! Location invariant (C10): every error constructed anywhere in the
validator goes through `mkValidationError`, whose normalisation forbids an
empty-string location. -/

theorem mkValidationError_locOk (m : String) (l : Option String) (s : String) :
    (mkValidationError m l s).location ≠ some "" := by
  by_cases h : l = some "" <;> simp [mkValidationError, h]

theorem errorsLocOk_nil : ErrorsLocOk [] := by
  intro e he
  simp at he

theorem errorsLocOk_singleton (m : String) (l : Option String) (s : String) :
    ErrorsLocOk [mkValidationError m l s] := by
  intro e he
  simp at he
  subst he
  exact mkValidationError_locOk m l s

theorem errorsLocOk_append {a b : List ValidationError}
    (ha : ErrorsLocOk a) (hb : ErrorsLocOk b) : ErrorsLocOk (a ++ b) := by
  intro e he
  rcases List.mem_append.mp he with h | h
  · exact ha e h
  · exact hb e h

theorem errorsLocOk_flatMap {α : Type} {xs : List α} {f : α → List ValidationError}
    (h : ∀ x ∈ xs, ErrorsLocOk (f x)) : ErrorsLocOk (xs.flatMap f) := by
  intro e he
  rw [List.mem_flatMap] at he
  obtain ⟨x, hx, hex⟩ := he
  exact h x hx e hex

theorem validateDate_locOk (v loc lab : String) : ErrorsLocOk (validateDate v loc lab) := by
  unfold validateDate
  split
  · exact errorsLocOk_nil
  · exact errorsLocOk_singleton _ _ _

theorem validateRequiredText_locOk (parent : Element) (tag loc mm : String)
    (pm : Option String) : ErrorsLocOk (validateRequiredText parent tag loc mm pm).1 := by
  unfold validateRequiredText
  cases parent.findTag tag with
  | none => exact errorsLocOk_singleton _ _ _
  | some el =>
    dsimp only
    split
    · exact errorsLocOk_singleton _ _ _
    · exact errorsLocOk_nil

theorem validateRequiredBlocks_locOk (root : Element) :
    ErrorsLocOk (validateRequiredBlocks root) := by
  unfold validateRequiredBlocks
  repeat' apply errorsLocOk_append
  all_goals split
  all_goals first
    | exact errorsLocOk_nil
    | exact errorsLocOk_singleton _ _ _

theorem validateFilingInformation_locOk (root : Element) :
    ErrorsLocOk (validateFilingInformation root) := by
  unfold validateFilingInformation
  cases root.findTag "FilingInformation" with
  | none => exact errorsLocOk_nil
  | some filing =>
    dsimp only
    repeat' apply errorsLocOk_append
    · exact validateRequiredText_locOk _ _ _ _ _
    · exact validateRequiredText_locOk _ _ _ _ _
    · split
      · split
        · exact errorsLocOk_nil
        · exact validateDate_locOk _ _ _
      · exact errorsLocOk_nil
    · exact validateRequiredText_locOk _ _ _ _ _

theorem validateFilerInformation_locOk (root : Element) :
    ErrorsLocOk (validateFilerInformation root) := by
  unfold validateFilerInformation
  cases root.findTag "FilerInformation" with
  | none => exact errorsLocOk_nil
  | some filer =>
    dsimp only
    cases filer.findTag "FilerAddress" with
    | none =>
      dsimp only
      apply errorsLocOk_append
      · exact validateRequiredText_locOk _ _ _ _ _
      · exact errorsLocOk_singleton _ _ _
    | some address =>
      dsimp only
      apply errorsLocOk_append
      · exact validateRequiredText_locOk _ _ _ _ _
      · apply errorsLocOk_flatMap
        intro tag _
        exact validateRequiredText_locOk _ _ _ _ _

theorem validateSubjects_locOk (root : Element) :
    ErrorsLocOk (validateSubjects root) := by
  unfold validateSubjects
  apply errorsLocOk_flatMap
  intro p _
  apply errorsLocOk_append
  · exact validateRequiredText_locOk _ _ _ _ _
  · exact validateRequiredText_locOk _ _ _ _ _

theorem sarAmountValueErrors_locOk (t loc : String) :
    ErrorsLocOk (sarAmountValueErrors t loc) := by
  unfold sarAmountValueErrors
  split
  · exact errorsLocOk_singleton _ _ _
  · split
    · exact errorsLocOk_nil
    · exact errorsLocOk_singleton _ _ _

theorem sarCurrencyErrors_locOk (c : Option String) (loc : String) :
    ErrorsLocOk (sarCurrencyErrors c loc) := by
  unfold sarCurrencyErrors
  cases c with
  | none => exact errorsLocOk_singleton _ _ _
  | some v =>
    dsimp only
    split
    · exact errorsLocOk_singleton _ _ _
    · split
      · exact errorsLocOk_nil
      · exact errorsLocOk_singleton _ _ _

theorem sarUetrErrors_locOk (txn : Element) (i : Nat) :
    ErrorsLocOk (sarUetrErrors txn i) := by
  unfold sarUetrErrors
  cases txn.findTag "UETR" with
  | none => exact errorsLocOk_singleton _ _ _
  | some u =>
    dsimp only
    split
    · exact errorsLocOk_nil
    · exact errorsLocOk_singleton _ _ _

theorem sarTransactionErrors_locOk (p : Nat × Element) :
    ErrorsLocOk (sarTransactionErrors p) := by
  unfold sarTransactionErrors
  dsimp only
  split
  · repeat' apply errorsLocOk_append
    · exact validateRequiredText_locOk _ _ _ _ _
    · split
      · split
        · exact errorsLocOk_nil
        · exact validateDate_locOk _ _ _
      · exact errorsLocOk_nil
    · exact errorsLocOk_singleton _ _ _
  · repeat' apply errorsLocOk_append
    · exact validateRequiredText_locOk _ _ _ _ _
    · split
      · split
        · exact errorsLocOk_nil
        · exact validateDate_locOk _ _ _
      · exact errorsLocOk_nil
    · exact sarAmountValueErrors_locOk _ _
    · exact sarCurrencyErrors_locOk _ _
    · exact sarUetrErrors_locOk _ _

theorem validateTransactions_locOk (root : Element) :
    ErrorsLocOk (validateTransactions root) := by
  unfold validateTransactions
  apply errorsLocOk_flatMap
  intro p _
  exact sarTransactionErrors_locOk p

theorem validateRoot_locOk (root : Element) :
    ErrorsLocOk (validateRoot root).errors := by
  unfold validateRoot
  split
  · exact errorsLocOk_singleton _ _ _
  · exact errorsLocOk_append
      (errorsLocOk_append
        (errorsLocOk_append
          (errorsLocOk_append (validateRequiredBlocks_locOk root)
            (validateFilingInformation_locOk root))
          (validateFilerInformation_locOk root))
        (validateSubjects_locOk root))
      (validateTransactions_locOk root)

/-- C10: every `ValidationError` in a result returned by `validate_string` or
`validate_file` has a location that is `None` or a non-empty string — the
constructor normalises an empty-string location to `None`, so callers never
observe one. -/
theorem location_never_empty_string :
    (∀ (parsed : Except String Element) (e : ValidationError),
      e ∈ (validateString parsed).errors → e.location ≠ some "") ∧
    (∀ (readOutcome : Except String String) (pathStr : String)
      (parse : String → Except String Element) (e : ValidationError),
      e ∈ (validateFile readOutcome pathStr parse).errors → e.location ≠ some "") := by
  have hs : ∀ (parsed : Except String Element), ErrorsLocOk (validateString parsed).errors := by
    intro parsed
    cases parsed with
    | error exc => exact errorsLocOk_singleton _ _ _
    | ok root => exact validateRoot_locOk root
  refine ⟨fun parsed e he => hs parsed e he, ?_⟩
  intro readOutcome pathStr parse e he
  cases readOutcome with
  | error exc => exact errorsLocOk_singleton _ _ _ e he
  | ok text => exact hs (parse text) e he

end SarParser


namespace SarParser

/-- C6 amended: each module flags only its own placeholder set. sar_parser
treats exactly the trimmed upper-cased values in {"", "UNKNOWN", "PENDING",
"NOT APPLICABLE"} as placeholders — for an amount this yields the placeholder
error and nothing else — while a value outside that set (TBD, N/A, NA
included) falls through to the numeric format check. stop_azs treats exactly
the trimmed lower-cased values in {"pending", "tbd", "unknown", "n/a", "na"}
as placeholder_amount, maps the empty string to missing_amount, and sends
everything else (NOT APPLICABLE included) to the invalid_amount format
check. -/
theorem placeholder_sets_characterization :
    (∀ s : String, isPlaceholder (some s) = true ↔
      pyUpper (pyStrip s) ∈ ["", "UNKNOWN", "PENDING", "NOT APPLICABLE"]) ∧
    (∀ s loc : String, pyUpper (pyStrip s) ∈ ["", "UNKNOWN", "PENDING", "NOT APPLICABLE"] →
      sarAmountValueErrors s loc =
        [mkValidationError "Amount must be provided instead of a placeholder."
          (some loc) "error"]) ∧
    (∀ s ctx : String, pyStrip s = s → s ≠ "" →
      pyLower s ∈ ["pending", "tbd", "unknown", "n/a", "na"] →
      StopAzs.amountIssues (some (some s)) ctx =
        [⟨"placeholder_amount",
          "Transaction amount contains placeholder value '" ++ s ++ "'.",
          "error", some (ctx ++ "/Amount")⟩]) ∧
    (∀ s ctx : String, pyStrip s = s → s ≠ "" →
      pyLower s ∉ ["pending", "tbd", "unknown", "n/a", "na"] →
      ∀ i ∈ StopAzs.amountIssues (some (some s)) ctx, i.code = "invalid_amount") ∧
    sarAmountValueErrors "N/A" "L" =
      [mkValidationError "Amount must be numeric." (some "L") "error"] ∧
    StopAzs.amountIssues (some (some "NOT APPLICABLE")) "C" =
      [⟨"invalid_amount",
        "Transaction amount 'NOT APPLICABLE' is not a valid positive decimal.",
        "error", some "C/Amount"⟩] := by
  refine ⟨?_, ?_, ?_, ?_, by decide, by decide⟩
  · intro s
    rw [isPlaceholder]
    show PLACEHOLDER_VALUES.contains (pyUpper (pyStrip s)) = true ↔ _
    rw [PLACEHOLDER_VALUES]
    exact List.elem_iff
  · intro s loc h
    have hc : isPlaceholder (some s) = true := by
      rw [isPlaceholder]
      show PLACEHOLDER_VALUES.contains (pyUpper (pyStrip s)) = true
      rw [PLACEHOLDER_VALUES]
      exact List.elem_iff.mpr h
    simp [sarAmountValueErrors, hc]
  · intro s ctx ht hne hmem
    have h1 : (s == "") = false := beq_eq_false_iff_ne.mpr hne
    have h2 : StopAzs.PLACEHOLDER_VALUES.contains (pyLower s) = true := by
      rw [StopAzs.PLACEHOLDER_VALUES]
      exact List.elem_iff.mpr hmem
    simp only [StopAzs.amountIssues, Option.getD_some, ht, h1, h2]
    simp
  · intro s ctx ht hne hmem i hi
    have h1 : (s == "") = false := beq_eq_false_iff_ne.mpr hne
    have h2 : StopAzs.PLACEHOLDER_VALUES.contains (pyLower s) = false := by
      rw [StopAzs.PLACEHOLDER_VALUES]
      exact Bool.eq_false_iff.mpr (fun hc => hmem (List.elem_iff.mp hc))
    simp only [StopAzs.amountIssues, Option.getD_some, ht, h1, h2] at hi
    by_cases hp : StopAzs.isPositiveDecimal s = true
    · simp [hp] at hi
    · rw [Bool.not_eq_true] at hp
      simp [hp] at hi
      subst hi
      rfl

/-- C7 amended: stop_azs checks the amount in exact decimal arithmetic —
acceptance is equivalent to the parsed decimal's exact rational value being
strictly positive, and 10.10 versus 10.1 parse to distinct
coefficient/exponent pairs of equal value — but it rejects zero and imposes
no fractional-digit bound; sar_parser accepts anything Python float() parses,
inf included, with no sign or precision constraint. -/
theorem amount_acceptance_characterization :
    (∀ (s : String) (neg : Bool) (coeff : Nat) (exp10 : Int),
      StopAzs.parseDecimalLit s = some (.finite neg coeff exp10) →
      (StopAzs.isPositiveDecimal s = true ↔ 0 < decimalValue neg coeff exp10)) ∧
    StopAzs.parseDecimalLit "10.10" = some (.finite false 1010 (-2)) ∧
    StopAzs.parseDecimalLit "10.1" = some (.finite false 101 (-1)) ∧
    decimalValue false 1010 (-2) = decimalValue false 101 (-1) ∧
    SarParser.pyFloatAccepts "inf" = true ∧
    SarParser.pyFloatAccepts "-0.001" = true := by
  refine ⟨?_, by decide, by decide, ?_, by decide, by decide⟩
  · intro s neg coeff exp10 h
    unfold StopAzs.isPositiveDecimal
    rw [h]
    have hp : (0 : ℚ) < (10 : ℚ) ^ exp10 := by positivity
    cases neg with
    | true =>
      have hd : decimalValue true coeff exp10 = -((coeff : ℚ) * (10 : ℚ) ^ exp10) := by
        simp [decimalValue]
      rw [hd]
      simp only [Bool.not_true, Bool.false_and]
      constructor
      · intro hfalse
        exact absurd hfalse (by simp)
      · intro hlt
        exfalso
        have hnn : (0 : ℚ) ≤ (coeff : ℚ) * (10 : ℚ) ^ exp10 :=
          mul_nonneg (Nat.cast_nonneg _) hp.le
        linarith
    | false =>
      have hd : decimalValue false coeff exp10 = (coeff : ℚ) * (10 : ℚ) ^ exp10 := by
        simp [decimalValue]
      rw [hd]
      simp only [Bool.not_false, Bool.true_and]
      constructor
      · intro hb
        have hc0 : coeff ≠ 0 := by simpa using hb
        have hcpos : (0 : ℚ) < (coeff : ℚ) := by
          exact_mod_cast Nat.pos_of_ne_zero hc0
        exact mul_pos hcpos hp
      · intro hlt
        by_contra hb
        have hc0 : coeff = 0 := by simpa using hb
        rw [hc0] at hlt
        simp at hlt
  · norm_num [decimalValue]

end SarParser


namespace StopAzs

/-! Duplicate-identifier check (C8): the seen-map fold of
`_check_duplicate_uetr` equals the declarative first-occurrence description. -/

theorem assocFind_cons (k : String) (v : Nat) (seen : List (String × Nat)) (n : String) :
    assocFind ((k, v) :: seen) n = if k == n then some v else assocFind seen n := by
  by_cases h : (k == n) = true <;> simp [assocFind, List.find?_cons, h]

theorem firstIdxAux_cons (i : Nat) (n : String) (t : SarTxn) (ts : List SarTxn) :
    firstIdxAux i n (t :: ts) =
      if uetrKey t == some n then some i else firstIdxAux (i + 1) n ts := rfl

theorem firstIdxAux_append (n : String) (xs ys : List SarTxn) :
    ∀ i, firstIdxAux i n (xs ++ ys) =
      match firstIdxAux i n xs with
      | some j => some j
      | none => firstIdxAux (i + xs.length) n ys := by
  induction xs with
  | nil =>
    intro i
    simp [firstIdxAux]
  | cons t ts ih =>
    intro i
    rw [List.cons_append, firstIdxAux_cons, firstIdxAux_cons]
    by_cases h : (uetrKey t == some n) = true
    · simp [h]
    · rw [if_neg (by simp [h]), if_neg (by simp [h]), ih (i + 1)]
      have harith : i + 1 + ts.length = i + (t :: ts).length := by
        simp [List.length_cons]
        omega
      rw [harith]

theorem firstIdxAux_bound (n : String) (xs : List SarTxn) :
    ∀ i j, firstIdxAux i n xs = some j → i ≤ j ∧ j < i + xs.length := by
  induction xs with
  | nil =>
    intro i j h
    simp [firstIdxAux] at h
  | cons t ts ih =>
    intro i j h
    rw [firstIdxAux_cons] at h
    by_cases hc : (uetrKey t == some n) = true
    · rw [if_pos hc] at h
      injection h with h
      subst h
      refine ⟨Nat.le_refl i, ?_⟩
      simp [List.length_cons]
    · rw [if_neg (by simp [hc])] at h
      obtain ⟨h1, h2⟩ := ih (i + 1) j h
      refine ⟨by omega, ?_⟩
      simp only [List.length_cons]
      omega

theorem dupGo_eq_specAux (full : List SarTxn) :
    ∀ (rest pre : List SarTxn) (seen : List (String × Nat)),
      full = pre ++ rest →
      (∀ n, assocFind seen n = firstIdxAux 1 n pre) →
      dupGo (pre.length + 1) seen rest =
        (SarParser.enumFrom (pre.length + 1) rest).flatMap (specDupBody full) := by
  intro rest
  induction rest with
  | nil =>
    intro pre seen _ _
    rfl
  | cons txn rest ih =>
    intro pre seen hfull hseen
    have hfull' : full = (pre ++ [txn]) ++ rest := by
      rw [hfull, List.append_assoc]
      rfl
    have hlen : (pre ++ [txn]).length = pre.length + 1 := by
      simp
    rw [show SarParser.enumFrom (pre.length + 1) (txn :: rest) =
          (pre.length + 1, txn) :: SarParser.enumFrom (pre.length + 1 + 1) rest from rfl,
        List.flatMap_cons]
    cases hft : findText txn.uetrEl with
    | none =>
      have hkey : uetrKey txn = none := by simp [uetrKey, hft]
      have hseen' : ∀ n, assocFind seen n = firstIdxAux 1 n (pre ++ [txn]) := by
        intro n
        rw [firstIdxAux_append]
        cases h1 : firstIdxAux 1 n pre with
        | some j => rw [hseen n, h1]
        | none =>
          rw [hseen n, h1]
          simp [firstIdxAux_cons, firstIdxAux, hkey]
      have hbody : specDupBody full (pre.length + 1, txn) = [] := by
        simp [specDupBody, hft]
      have htail := ih (pre ++ [txn]) seen hfull' hseen'
      rw [hlen] at htail
      rw [hbody, List.nil_append]
      rw [show dupGo (pre.length + 1) seen (txn :: rest) =
            dupGo (pre.length + 1 + 1) seen rest by simp [dupGo, hft]]
      exact htail
    | some value =>
      by_cases hpl : (PLACEHOLDER_VALUES.contains (SarParser.pyLower value)) = true
      · have hplm : SarParser.pyLower value ∈ PLACEHOLDER_VALUES :=
          List.elem_iff.mp hpl
        have hkey : uetrKey txn = none := by simp [uetrKey, hft, hplm]
        have hseen' : ∀ n, assocFind seen n = firstIdxAux 1 n (pre ++ [txn]) := by
          intro n
          rw [firstIdxAux_append]
          cases h1 : firstIdxAux 1 n pre with
          | some j => rw [hseen n, h1]
          | none =>
            rw [hseen n, h1]
            simp [firstIdxAux_cons, firstIdxAux, hkey]
        have hbody : specDupBody full (pre.length + 1, txn) = [] := by
          simp [specDupBody, hft, hplm]
        have htail := ih (pre ++ [txn]) seen hfull' hseen'
        rw [hlen] at htail
        rw [hbody, List.nil_append]
        rw [show dupGo (pre.length + 1) seen (txn :: rest) =
              dupGo (pre.length + 1 + 1) seen rest by simp [dupGo, hft, hplm]]
        exact htail
      · have hplm : SarParser.pyLower value ∉ PLACEHOLDER_VALUES :=
          fun hm => hpl (List.elem_iff.mpr hm)
        have hkey : uetrKey txn = some (SarParser.pyLower value) := by
          simp [uetrKey, hft, hplm]
        cases hsf : assocFind seen (SarParser.pyLower value) with
        | some j =>
          have hpre : firstIdxAux 1 (SarParser.pyLower value) pre = some j := by
            rw [← hseen _, hsf]
          have hfirst : firstOccurrenceIndex full (SarParser.pyLower value) = some j := by
            rw [hfull, firstOccurrenceIndex, firstIdxAux_append, hpre]
          have hjlt : j < pre.length + 1 := by
            have := firstIdxAux_bound _ pre 1 j hpre
            omega
          have hbody : specDupBody full (pre.length + 1, txn) =
              [dupIssue value (pre.length + 1) j] := by
            simp [specDupBody, hft, hplm, hfirst, hjlt]
          have hseen' : ∀ n, assocFind seen n = firstIdxAux 1 n (pre ++ [txn]) := by
            intro n
            rw [firstIdxAux_append]
            cases h1 : firstIdxAux 1 n pre with
            | some j' => rw [hseen n, h1]
            | none =>
              rw [hseen n, h1]
              have hn : ¬((SarParser.pyLower value) == n) = true := by
                intro hc
                have : SarParser.pyLower value = n := by simpa using hc
                rw [← this, hpre] at h1
                exact absurd h1 (by simp)
              simp only [firstIdxAux_cons, hkey, firstIdxAux]
              rw [if_neg (by simpa using hn)]
          have htail := ih (pre ++ [txn]) seen hfull' hseen'
          rw [hlen] at htail
          rw [hbody]
          rw [show dupGo (pre.length + 1) seen (txn :: rest) =
                dupIssue value (pre.length + 1) j ::
                  dupGo (pre.length + 1 + 1) seen rest by
            simp [dupGo, hft, hplm, hsf]]
          rw [htail]
          rfl
        | none =>
          have hpre : firstIdxAux 1 (SarParser.pyLower value) pre = none := by
            rw [← hseen _, hsf]
          have hfirst : firstOccurrenceIndex full (SarParser.pyLower value) =
              some (pre.length + 1) := by
            rw [hfull, firstOccurrenceIndex, firstIdxAux_append, hpre]
            simp [firstIdxAux_cons, hkey]
            omega
          have hbody : specDupBody full (pre.length + 1, txn) = [] := by
            simp [specDupBody, hft, hplm, hfirst]
          have hseen' : ∀ n,
              assocFind ((SarParser.pyLower value, pre.length + 1) :: seen) n =
                firstIdxAux 1 n (pre ++ [txn]) := by
            intro n
            rw [assocFind_cons, firstIdxAux_append]
            by_cases hn : ((SarParser.pyLower value) == n) = true
            · have hveq : SarParser.pyLower value = n := by simpa using hn
              rw [if_pos hn]
              rw [← hveq, hpre]
              simp [firstIdxAux_cons, hkey]
              omega
            · rw [if_neg (by simpa using hn)]
              cases h1 : firstIdxAux 1 n pre with
              | some j' => rw [hseen n, h1]
              | none =>
                rw [hseen n, h1]
                simp only [firstIdxAux_cons, hkey, firstIdxAux]
                rw [if_neg (by simpa using hn)]
          have htail := ih (pre ++ [txn])
            ((SarParser.pyLower value, pre.length + 1) :: seen) hfull' hseen'
          rw [hlen] at htail
          rw [hbody, List.nil_append]
          rw [show dupGo (pre.length + 1) seen (txn :: rest) =
                dupGo (pre.length + 1 + 1)
                  ((SarParser.pyLower value, pre.length + 1) :: seen) rest by
            simp [dupGo, hft, hplm, hsf]]
          exact htail

/-- C8: the stop_azs duplicate check tracks identifiers case-insensitively
(by lower-cased value, skipping absent, empty and placeholder values): it
equals the declarative description written from the claim's words — the
first occurrence of an identifier is never flagged, and each second or
subsequent occurrence yields exactly one error-severity duplicate issue whose
message references the first occurrence's index. The claim's concrete
all-digit identifier 11111111-1111-1111-1111-111111111111 admits no letter-
case variation, so the instance is proved with the identifier repeated
verbatim, together with a genuinely case-differing pair from the repository's
own test suite. -/
theorem duplicate_uetr_matches_first_occurrence :
    (∀ txns : List SarTxn, checkDuplicateUetr txns = specDuplicateIssues txns) ∧
    checkDuplicateUetr
        [txnWithUetr "11111111-1111-1111-1111-111111111111",
         txnWithUetr "11111111-1111-1111-1111-111111111111"] =
      [dupIssue "11111111-1111-1111-1111-111111111111" 2 1] ∧
    checkDuplicateUetr
        [txnWithUetr "123E4567-E89B-12D3-A456-426614174000",
         txnWithUetr "123e4567-e89b-12d3-a456-426614174000"] =
      [dupIssue "123e4567-e89b-12d3-a456-426614174000" 2 1] := by
  refine ⟨?_, by decide, by decide⟩
  intro txns
  have h := dupGo_eq_specAux txns txns [] [] rfl (fun n => rfl)
  simpa [checkDuplicateUetr, specDuplicateIssues] using h

end StopAzs


namespace SarParser

/-! Sufficiency of the hexadecimal-identifier branch of C3, over arbitrary
well-formed documents. -/

theorem isPlaceholder_false_beq_empty {s : String}
    (h : isPlaceholder (some s) = false) : (s == "") = false := by
  by_cases hc : s = ""
  · subst hc
    exact absurd h (by decide)
  · exact beq_eq_false_iff_ne.mpr hc

theorem validateRequiredText_clean (parent : Element) (tag loc mm : String)
    (pm : Option String) (el : Element) (v : String)
    (hfind : parent.findTag tag = some el) (htext : el.text = some v)
    (hstrip : pyStrip v = v) (hpl : isPlaceholder (some v) = false) :
    validateRequiredText parent tag loc mm pm = ([], some v) := by
  unfold validateRequiredText
  rw [hfind]
  have hval : normaliseText el.text = v := by
    rw [htext]
    show pyStrip v = v
    exact hstrip
  dsimp only
  rw [hval, hpl]
  simp

theorem enumFrom_mem_snd {α : Type} {l : List α} :
    ∀ {i : Nat} {p : Nat × α}, p ∈ SarParser.enumFrom i l → p.2 ∈ l := by
  induction l with
  | nil =>
    intro i p h
    simp [enumFrom] at h
  | cons x xs ih =>
    intro i p h
    rw [show enumFrom i (x :: xs) = (i, x) :: enumFrom (i + 1) xs from rfl] at h
    rcases List.mem_cons.mp h with h | h
    · subst h
      exact List.mem_cons_self _ _
    · exact List.mem_cons_of_mem _ (ih h)

theorem filter_map_tag {α : Type} (f : α → Element) (t : String)
    (hf : ∀ a, (f a).tag = t) (l : List α) :
    (l.map f).filter (fun g => g.tag == t) = l.map f := by
  induction l with
  | nil => rfl
  | cons x xs ih =>
    rw [List.map_cons, List.filter_cons]
    rw [if_pos (by simp [hf x])]
    rw [ih]

theorem sarTransactionErrors_clean (i : Nat) (d a c u : String)
    (hd : CleanText d) (hdv : validDateYmd d = true)
    (ha : CleanText a) (hfa : pyFloatAccepts a = true)
    (hc : CleanText c) (hclen : c.length = 3)
    (hcal : strAll c Char.isAlpha = true)
    (hu : pyStrip u = u) (hup : uetrPatternMatches u = true) :
    sarTransactionErrors (i, mkTransaction (d, a, c, u)) = [] := by
  have hrd := validateRequiredText_clean (mkTransaction (d, a, c, u)) "Date"
    ("/SAR/Transactions/Transaction[" ++ toString i ++ "]/Date")
    "Transaction is missing a <Date> element."
    (some "Transaction date cannot be empty or a placeholder.")
    (leaf "Date" d) d rfl rfl hd.1 hd.2
  have hamt : (mkTransaction (d, a, c, u)).findTag "Amount" =
      some ⟨"Amount", [("currency", c)], some a, []⟩ := rfl
  have huetr : (mkTransaction (d, a, c, u)).findTag "UETR" =
      some (leaf "UETR" u) := rfl
  have hnorm : normaliseText (some a) = a := ha.1
  have hdate : validateDate d
      ("/SAR/Transactions/Transaction[" ++ toString i ++ "]/Date")
      "Transaction date" = [] := by
    simp [validateDate, hdv]
  have hamount : sarAmountValueErrors a
      ("/SAR/Transactions/Transaction[" ++ toString i ++ "]/Amount") = [] := by
    simp [sarAmountValueErrors, ha.2, hfa]
  have hcurr : sarCurrencyErrors
      ((⟨"Amount", [("currency", c)], some a, []⟩ : Element).getAttr "currency")
      ("/SAR/Transactions/Transaction[" ++ toString i ++ "]/Amount") = [] := by
    rw [show (⟨"Amount", [("currency", c)], some a, []⟩ : Element).getAttr "currency" =
        some c from rfl]
    simp only [sarCurrencyErrors, hc.2, hc.1]
    rw [if_neg (by simp)]
    rw [if_pos (by simp [hclen, hcal])]
  have huetrE : sarUetrErrors (mkTransaction (d, a, c, u)) i = [] := by
    unfold sarUetrErrors
    rw [huetr]
    dsimp only
    rw [show normaliseText (leaf "UETR" u).text = u from hu, hup]
    simp
  unfold sarTransactionErrors
  simp only [hrd, hamt]
  simp [hnorm, isPlaceholder_false_beq_empty hd.2, hdate, hamount, hcurr, huetrE]

/-- Sufficiency of the 32-hexadecimal identifier branch: a fully populated
document whose filing, filer, address and subject fields are stripped
non-placeholder values, whose dates parse as YYYY-MM-DD, whose amounts
Python float() accepts, whose currencies are three letters and whose UETRs
match the 32-hexadecimal pattern passes `validate_string` with no error —
so of the claim C3 lists, only the hyphenated-UUID identifier form fails. -/
theorem validate_root_hex_sufficiency
    (ft fd amend fn a1 city st zip ctry : String)
    (subjects : List (String × String))
    (txns : List (String × String × String × String))
    (hft : CleanText ft)
    (hfd : CleanText fd) (hfdv : validDateYmd fd = true)
    (hamend : CleanText amend)
    (hfn : CleanText fn) (ha1 : CleanText a1) (hcity : CleanText city)
    (hst : CleanText st) (hzip : CleanText zip) (hctry : CleanText ctry)
    (hsubs : subjects ≠ [])
    (hsub : ∀ p ∈ subjects, CleanText p.1 ∧ CleanText p.2)
    (htxns : txns ≠ [])
    (htxn : ∀ t ∈ txns,
      CleanText t.1 ∧ validDateYmd t.1 = true ∧
      CleanText t.2.1 ∧ pyFloatAccepts t.2.1 = true ∧
      CleanText t.2.2.1 ∧ t.2.2.1.length = 3 ∧ strAll t.2.2.1 Char.isAlpha = true ∧
      pyStrip t.2.2.2 = t.2.2.2 ∧ uetrPatternMatches t.2.2.2 = true) :
    (validateRoot (mkSARDoc ft fd amend fn a1 city st zip ctry subjects txns)).is_valid
      = true := by
  have hsubfilter := filter_map_tag mkSubject "Subject" (fun _ => rfl) subjects
  have htxnfilter := filter_map_tag mkTransaction "Transaction" (fun _ => rfl) txns
  have hfindSubs : (mkSARDoc ft fd amend fn a1 city st zip ctry subjects
      txns).findAll2 "Subjects" "Subject" = subjects.map mkSubject := by
    show ((subjects.map mkSubject).filter (fun g => g.tag == "Subject")) ++ [] =
      subjects.map mkSubject
    rw [List.append_nil, hsubfilter]
  have hfindTxns : (mkSARDoc ft fd amend fn a1 city st zip ctry subjects
      txns).findAll2 "Transactions" "Transaction" = txns.map mkTransaction := by
    show ((txns.map mkTransaction).filter (fun g => g.tag == "Transaction")) ++ [] =
      txns.map mkTransaction
    rw [List.append_nil, htxnfilter]
  have h1 : validateRequiredBlocks
      (mkSARDoc ft fd amend fn a1 city st zip ctry subjects txns) = [] := by
    unfold validateRequiredBlocks
    rw [hfindSubs, hfindTxns]
    have hse : (subjects.map mkSubject).isEmpty = false := by
      cases subjects with
      | nil => exact absurd rfl hsubs
      | cons x xs => rfl
    have hte : (txns.map mkTransaction).isEmpty = false := by
      cases txns with
      | nil => exact absurd rfl htxns
      | cons x xs => rfl
    rw [show ((mkSARDoc ft fd amend fn a1 city st zip ctry subjects
      txns).findTag "FilingInformation").isNone = false from rfl]
    rw [show ((mkSARDoc ft fd amend fn a1 city st zip ctry subjects
      txns).findTag "FilerInformation").isNone = false from rfl]
    simp [hse, hte]
  have h2 : validateFilingInformation
      (mkSARDoc ft fd amend fn a1 city st zip ctry subjects txns) = [] := by
    have hfi : (mkSARDoc ft fd amend fn a1 city st zip ctry subjects
        txns).findTag "FilingInformation" =
        some (node "FilingInformation"
          [leaf "FilingType" ft, leaf "FilingDate" fd,
           leaf "AmendmentType" amend]) := rfl
    have hr1 := validateRequiredText_clean
      (node "FilingInformation"
        [leaf "FilingType" ft, leaf "FilingDate" fd, leaf "AmendmentType" amend])
      "FilingType" "/SAR/FilingInformation/FilingType"
      "Missing <FilingType> value."
      (some "FilingType cannot be empty or a placeholder.")
      (leaf "FilingType" ft) ft rfl rfl hft.1 hft.2
    have hr2 := validateRequiredText_clean
      (node "FilingInformation"
        [leaf "FilingType" ft, leaf "FilingDate" fd, leaf "AmendmentType" amend])
      "FilingDate" "/SAR/FilingInformation/FilingDate"
      "Missing <FilingDate> value."
      (some "FilingDate cannot be empty or a placeholder.")
      (leaf "FilingDate" fd) fd rfl rfl hfd.1 hfd.2
    have hr3 := validateRequiredText_clean
      (node "FilingInformation"
        [leaf "FilingType" ft, leaf "FilingDate" fd, leaf "AmendmentType" amend])
      "AmendmentType" "/SAR/FilingInformation/AmendmentType"
      "Missing <AmendmentType> value."
      (some "AmendmentType cannot be empty or a placeholder.")
      (leaf "AmendmentType" amend) amend rfl rfl hamend.1 hamend.2
    have hdate : validateDate fd "/SAR/FilingInformation/FilingDate"
        "FilingDate" = [] := by
      simp [validateDate, hfdv]
    unfold validateFilingInformation
    rw [hfi]
    simp [hr1, hr2, hr3, isPlaceholder_false_beq_empty hfd.2, hdate]
  have h3 : validateFilerInformation
      (mkSARDoc ft fd amend fn a1 city st zip ctry subjects txns) = [] := by
    have hfi : (mkSARDoc ft fd amend fn a1 city st zip ctry subjects
        txns).findTag "FilerInformation" =
        some (node "FilerInformation"
          [leaf "FilerName" fn,
           node "FilerAddress"
            [leaf "AddressLine1" a1, leaf "City" city, leaf "State" st,
             leaf "ZIP" zip, leaf "Country" ctry]]) := rfl
    have hrn := validateRequiredText_clean
      (node "FilerInformation"
        [leaf "FilerName" fn,
         node "FilerAddress"
          [leaf "AddressLine1" a1, leaf "City" city, leaf "State" st,
           leaf "ZIP" zip, leaf "Country" ctry]])
      "FilerName" "/SAR/FilerInformation/FilerName"
      "Missing <FilerName> value."
      (some "FilerName cannot be empty or a placeholder.")
      (leaf "FilerName" fn) fn rfl rfl hfn.1 hfn.2
    have haddr : (node "FilerInformation"
        [leaf "FilerName" fn,
         node "FilerAddress"
          [leaf "AddressLine1" a1, leaf "City" city, leaf "State" st,
           leaf "ZIP" zip, leaf "Country" ctry]]).findTag "FilerAddress" =
        some (node "FilerAddress"
          [leaf "AddressLine1" a1, leaf "City" city, leaf "State" st,
           leaf "ZIP" zip, leaf "Country" ctry]) := rfl
    have haddrEl : ∀ (tag v : String), CleanText v →
        (node "FilerAddress"
          [leaf "AddressLine1" a1, leaf "City" city, leaf "State" st,
           leaf "ZIP" zip, leaf "Country" ctry]).findTag tag = some (leaf tag v) →
        (validateRequiredText
          (node "FilerAddress"
            [leaf "AddressLine1" a1, leaf "City" city, leaf "State" st,
             leaf "ZIP" zip, leaf "Country" ctry])
          tag ("/SAR/FilerInformation/FilerAddress/" ++ tag)
          ("Missing <" ++ tag ++ "> value in filer address.")
          (some ("<" ++ tag ++ "> in filer address cannot be empty or a placeholder."))).1
          = [] := by
      intro tag v hv hfind
      rw [validateRequiredText_clean _ tag _ _ _ (leaf tag v) v hfind rfl hv.1 hv.2]
    unfold validateFilerInformation
    rw [hfi]
    simp only [hrn, haddr]
    simp only [filerAddressTags, List.flatMap_cons, List.flatMap_nil]
    rw [haddrEl "AddressLine1" a1 ha1 rfl, haddrEl "City" city hcity rfl,
        haddrEl "State" st hst rfl, haddrEl "ZIP" zip hzip rfl,
        haddrEl "Country" ctry hctry rfl]
    simp
  have h4 : validateSubjects
      (mkSARDoc ft fd amend fn a1 city st zip ctry subjects txns) = [] := by
    unfold validateSubjects
    rw [hfindSubs]
    rw [List.flatMap_eq_nil_iff]
    intro p hp
    obtain ⟨pr, hmem, hmk⟩ := List.mem_map.mp (enumFrom_mem_snd hp)
    have hn := (hsub pr hmem).1
    have he := (hsub pr hmem).2
    have hname := validateRequiredText_clean (mkSubject pr) "Name"
      ("/SAR/Subjects/Subject[" ++ toString p.1 ++ "]" ++ "/Name")
      "Subject must include a <Name> element."
      (some "Subject name cannot be empty or a placeholder.")
      (leaf "Name" pr.1) pr.1 rfl rfl hn.1 hn.2
    have hent := validateRequiredText_clean (mkSubject pr) "EntityType"
      ("/SAR/Subjects/Subject[" ++ toString p.1 ++ "]" ++ "/EntityType")
      "Subject must include an <EntityType> element."
      (some "EntityType cannot be empty or a placeholder.")
      (leaf "EntityType" pr.2) pr.2 rfl rfl he.1 he.2
    dsimp only
    rw [← hmk]
    rw [hname, hent]
    simp
  have h5 : validateTransactions
      (mkSARDoc ft fd amend fn a1 city st zip ctry subjects txns) = [] := by
    unfold validateTransactions
    rw [hfindTxns]
    rw [List.flatMap_eq_nil_iff]
    intro p hp
    obtain ⟨t, hmem, hmk⟩ := List.mem_map.mp (enumFrom_mem_snd hp)
    obtain ⟨d, a, c, u⟩ := t
    obtain ⟨htd, htdv, hta, htfa, htc, htcl, htca, htu, htup⟩ := htxn (d, a, c, u) hmem
    have hclean := sarTransactionErrors_clean p.1 d a c u htd htdv hta htfa htc
      htcl htca htu htup
    have hp2 : sarTransactionErrors (p.1, p.2) = [] := hmk ▸ hclean
    exact hp2
  unfold validateRoot
  rw [if_neg (by simp [mkSARDoc, node])]
  simp [ValidationResult.is_valid, h1, h2, h3, h4, h5]

end SarParser

